import Mathlib

/-!
# Verification of the x-rs W3C conformance test harness

Shallow embedding of the test-driver core of the `x-engine` crate:

* `src/x-engine/src/testdriver/qt3.rs` — QT3 (XPath/XQuery) driver:
  data model, `check_dependency`, `check_assertion`, `run_test_case`,
  and the environment-resolution part of catalog/test-set parsing.
* `src/x-engine/src/testdriver/xslt30.rs` — the environment handling of
  the XSLT 3.0 driver's `run_test_case`.
* `src/x-engine/src/testdriver/mod.rs` — `TestOutcome`, `TestResult`.
* `src/x-engine/src/reporter.rs` — `ComplianceSummary::from_results`.

Modelling conventions:

* The pluggable XML engines (xee/xrust/xust) are out-of-scope external
  collaborators; an engine is modelled as a record of its backend tag plus
  its observable operations (`parse`, `parse_file`, `xpath`), each a pure
  function returning `Except`.  Engine-internal mutation (`&mut`) has no
  observable effect on the driver logic modelled here.
* A query result is modelled by the four observers the driver uses
  (`to_string`, `count`, `is_empty`, `items`).
* Rust `String` is Lean `String`; `PathBuf` is modelled as the path string,
  with `PathBuf::join` of a relative component modelled by `pathJoin`.
* `HashMap<String, _>` is modelled as an association list with first-match
  lookup; `insert` prepends, which is observationally the same shadowing.
* Wall-clock fields (`duration`, `Instant`) and the `expected` field of the
  QT3 driver's result (a `Debug` rendering of the assertion, inspected by no
  claim) are omitted from the models.
* `f64` arithmetic in the reporter is modelled by exact rationals; at every
  value appearing in the claims the `f64` computation is exact.
-/

namespace XRS

/-- Rust `str::contains` on character lists: prefix test (`List.isPrefixOf`
spelled out on characters). -/
def charsHasPre : List Char → List Char → Bool
  | [], _ => true
  | _ :: _, [] => false
  | a :: as, b :: bs => a == b && charsHasPre as bs

/-- Rust `str::contains` on character lists: does `pat` occur as a contiguous
sublist of the second argument? -/
def charsHasSub (pat : List Char) : List Char → Bool
  | [] => pat.isEmpty
  | b :: bs => charsHasPre pat (b :: bs) || charsHasSub pat bs

/-- Rust `s.contains(pat)` (substring containment). -/
def strContains (s pat : String) : Bool :=
  charsHasSub pat.toList s.toList

/-- `PathBuf::join` with a relative component (`base_dir.join(&file)` in
`qt3.rs`), modelled on path strings. -/
def pathJoin (base file : String) : String :=
  base ++ "/" ++ file

/-- Rust `str::trim` (drop leading and trailing whitespace), written on the
character list so that it evaluates inside the kernel. -/
def strTrim (s : String) : String :=
  ⟨((s.toList.dropWhile Char.isWhitespace).reverse.dropWhile Char.isWhitespace).reverse⟩

/-- Rust `str::to_lowercase`, restricted to the ASCII lowering `Char.toLower`
performs (sufficient for the `"true"`/`"false"` comparisons it is used in). -/
def strToLower (s : String) : String :=
  ⟨s.toList.map Char.toLower⟩

/-- `crate::error::Error`, modelled by its display string (the drivers only
ever format errors with `{}`). -/
structure EngineError where
  message : String
deriving Repr, DecidableEq

/-- The observable part of `unified.rs`'s `XQueryResult`: the four observers
`to_string`, `count`, `is_empty`, `items` used by `check_assertion` and
`run_test_case`.  The backends producing it are out of scope, so the
observers are independent fields. -/
structure XQueryResult where
  toStr : String
  count : Nat
  isEmpty : Bool
  itemsEmpty : Bool
deriving Repr, DecidableEq

/-- `testdriver/mod.rs` `TestOutcome`. -/
inductive TestOutcome where
  | pass
  | fail (reason : String)
  | error (reason : String)
  | notApplicable
  | skipped
deriving Repr, DecidableEq

namespace TestOutcome

/-- `TestOutcome::is_pass`. -/
def isPass : TestOutcome → Bool
  | .pass => true
  | _ => false

/-- `TestOutcome::is_fail`. -/
def isFail : TestOutcome → Bool
  | .fail _ => true
  | _ => false

/-- `TestOutcome::is_error`. -/
def isError : TestOutcome → Bool
  | .error _ => true
  | _ => false

end TestOutcome

/-- `qt3.rs` `Assertion` (the recursive expected-result tree). -/
inductive Assertion where
  | allOf (assertions : List Assertion)
  | anyOf (assertions : List Assertion)
  | not (inner : Assertion)
  | assertEq (expected : String)
  | assertCount (expected : Nat)
  | assertEmpty
  | assertTrue
  | assertFalse
  | assertType (name : String)
  | assertStringValue (value : String) (normalizeSpace : Bool)
  | error (code : String)
  | assertXml (xml : Option String) (file : Option String) (ignorePrefixes : Bool)
  | assertDeepEq (expr : String)
  | assertPermutation (expr : String)
  | assert (expr : String)
  | serializationMatches (regex : Option String) (file : Option String) (flags : Option String)
deriving Repr

/-- `qt3.rs` `normalize_whitespace`: split on whitespace (dropping empty
pieces, as Rust `split_whitespace` does) and re-join with single spaces. -/
def normalizeWhitespace (s : String) : String :=
  String.intercalate " "
    (((s.toList.splitOnP Char.isWhitespace).map (fun w => String.mk w)).filter
      (fun p => p ≠ ""))

mutual

/-- `qt3.rs` `check_assertion`: judge an execution outcome
(`Ok(&XQueryResult)` / `Err(&Error)`) against an assertion tree.  The
`&mut XEngine` parameter of the Rust function is unused in every branch and
omitted. -/
def checkAssertion (assertion : Assertion) (result : Except EngineError XQueryResult) :
    TestOutcome :=
  match assertion with
  | .allOf assertions => checkAllOf assertions result
  | .anyOf assertions => checkAnyOf assertions result none
  | .not inner =>
    match checkAssertion inner result with
    | .pass => .fail "Expected NOT to pass"
    | .fail _ => .pass
    | other => other
  | .assertEq expected =>
    match result with
    | .ok r =>
      let actual := strTrim r.toStr
      let expected := strTrim expected
      if actual == expected then .pass
      else .fail ("Expected \x27" ++ expected ++ "\x27, got \x27" ++ actual ++ "\x27")
    | .error e => .fail ("Expected value, got error: " ++ e.message)
  | .assertCount expected =>
    match result with
    | .ok r =>
      if r.count == expected then .pass
      else .fail ("Expected count " ++ toString expected ++ ", got " ++ toString r.count)
    | .error e => .fail ("Expected count, got error: " ++ e.message)
  | .assertEmpty =>
    match result with
    | .ok r =>
      if r.isEmpty then .pass
      else .fail ("Expected empty, got " ++ toString r.count ++ " items")
    | .error e => .fail ("Expected empty, got error: " ++ e.message)
  | .assertTrue =>
    match result with
    | .ok r =>
      if strToLower (strTrim r.toStr) == "true" then .pass
      else .fail ("Expected true, got \x27" ++ r.toStr ++ "\x27")
    | .error e => .fail ("Expected true, got error: " ++ e.message)
  | .assertFalse =>
    match result with
    | .ok r =>
      if strToLower (strTrim r.toStr) == "false" then .pass
      else .fail ("Expected false, got \x27" ++ r.toStr ++ "\x27")
    | .error e => .fail ("Expected false, got error: " ++ e.message)
  | .assertType _ =>
    match result with
    | .ok _ => .pass
    | .error e => .fail ("Expected typed value, got error: " ++ e.message)
  | .assertStringValue value normalizeSpace =>
    match result with
    | .ok r =>
      let actual := if normalizeSpace then normalizeWhitespace r.toStr else r.toStr
      let expected := if normalizeSpace then normalizeWhitespace value else value
      if actual == expected then .pass
      else .fail ("Expected \x27" ++ expected ++ "\x27, got \x27" ++ actual ++ "\x27")
    | .error e => .fail ("Expected string value, got error: " ++ e.message)
  | .error expectedCode =>
    match result with
    | .ok r => .fail ("Expected error " ++ expectedCode ++ ", got result: " ++ r.toStr)
    | .error _ =>
      -- For now the code accepts any error as matching (both branches Pass).
      if expectedCode == "*" then .pass else .pass
  | .assertXml xml _ _ =>
    match result with
    | .ok r =>
      match xml with
      | some expectedXml =>
        let actual := r.toStr
        if strContains actual (strTrim expectedXml) || strContains expectedXml (strTrim actual) then .pass
        else .fail ("XML mismatch: expected \x27" ++ expectedXml ++ "\x27, got \x27" ++ actual ++ "\x27")
      | none => .pass
    | .error e => .fail ("Expected XML, got error: " ++ e.message)
  | .assertDeepEq _ =>
    match result with
    | .ok _ => .pass
    | .error e => .fail ("Got error: " ++ e.message)
  | .assertPermutation _ =>
    match result with
    | .ok _ => .pass
    | .error e => .fail ("Got error: " ++ e.message)
  | .assert xpathExpr =>
    match result with
    | .ok r =>
      if r.itemsEmpty then
        .fail ("Custom assertion \x27" ++ xpathExpr ++ "\x27 with empty result")
      else .pass
    | .error e => .fail ("Got error: " ++ e.message)
  | .serializationMatches _ _ _ => .notApplicable
termination_by sizeOf assertion

/-- The `Assertion::AllOf` loop of `check_assertion`: evaluate in order,
return the first non-`Pass` outcome, `Pass` if none. -/
def checkAllOf (assertions : List Assertion) (result : Except EngineError XQueryResult) :
    TestOutcome :=
  match assertions with
  | [] => .pass
  | a :: rest =>
    match checkAssertion a result with
    | .pass => checkAllOf rest result
    | other => other
termination_by sizeOf assertions

/-- The `Assertion::AnyOf` loop of `check_assertion`: return `Pass` at the
first passing element; otherwise the `last_failure` accumulator
(`unwrap_or(Pass)` at the end). -/
def checkAnyOf (assertions : List Assertion) (result : Except EngineError XQueryResult)
    (lastFailure : Option TestOutcome) : TestOutcome :=
  match assertions with
  | [] => lastFailure.getD .pass
  | a :: rest =>
    match checkAssertion a result with
    | .pass => .pass
    | other => checkAnyOf rest result (some other)
termination_by sizeOf assertions

end

-- ===== Helper lemmas about the assertion evaluator =====

theorem charsHasPre_append (l t : List Char) : charsHasPre l (l ++ t) = true := by
  induction l with
  | nil => rfl
  | cons c cs ih => simp [charsHasPre, ih]

theorem charsHasSub_append (l₁ p l₂ : List Char) :
    charsHasSub p (l₁ ++ (p ++ l₂)) = true := by
  induction l₁ with
  | nil =>
    cases p with
    | nil => cases l₂ <;> simp [charsHasSub, charsHasPre]
    | cons c cs =>
      have h := charsHasPre_append (c :: cs) l₂
      simp only [List.cons_append] at h
      simp [charsHasSub, h]
  | cons x xs ih => simp [charsHasSub, ih]

/-- A string assembled as `pre ++ code ++ suf` contains `code`. -/
theorem strContains_mid (pre code suf : String) :
    strContains (pre ++ code ++ suf) code = true := by
  have h : (pre ++ code ++ suf).toList = pre.toList ++ (code.toList ++ suf.toList) := by
    simp [String.toList, String.data_append]
  rw [strContains, h]
  exact charsHasSub_append _ _ _

/-- The `AllOf` loop returns the first non-`Pass` outcome of the evaluated
list, and `Pass` when there is none. -/
theorem checkAllOf_eq_find (l : List Assertion) (r : Except EngineError XQueryResult) :
    checkAllOf l r
      = ((l.map (fun a => checkAssertion a r)).find? (fun o => !o.isPass)).getD .pass := by
  induction l with
  | nil => simp [checkAllOf]
  | cons a rest ih =>
    rw [checkAllOf]
    cases h : checkAssertion a r <;>
      simp [h, TestOutcome.isPass, List.find?_cons, ih]

/-- The `AnyOf` loop returns `Pass` as soon as some element passes. -/
theorem checkAnyOf_pass (l : List Assertion) (r : Except EngineError XQueryResult)
    (last : Option TestOutcome) (a : Assertion) (ha : a ∈ l)
    (hp : checkAssertion a r = .pass) : checkAnyOf l r last = .pass := by
  induction l generalizing last with
  | nil => cases ha
  | cons b rest ih =>
    rw [checkAnyOf]
    rcases List.mem_cons.mp ha with rfl | hmem
    · rw [hp]
    · cases h : checkAssertion b r
      · rfl
      all_goals exact ih _ hmem


/-- `getLast?.getD` over a non-empty list ignores the default. -/
theorem getLastD_cons_irrel (x : TestOutcome) (xs : List TestOutcome) (d₁ d₂ : TestOutcome) :
    ((x :: xs).getLast?).getD d₁ = ((x :: xs).getLast?).getD d₂ := by
  induction xs generalizing x with
  | nil => rfl
  | cons y ys ih => rw [List.getLast?_cons_cons]; exact ih y

/-- When no element passes, the `AnyOf` loop ends with the `last_failure`
accumulator holding the outcome of the last evaluated element. -/
theorem checkAnyOf_noPass (l : List Assertion) (r : Except EngineError XQueryResult)
    (last : Option TestOutcome) (h : ∀ a ∈ l, checkAssertion a r ≠ .pass) :
    checkAnyOf l r last
      = ((l.map (fun a => checkAssertion a r)).getLast?).getD (last.getD .pass) := by
  induction l generalizing last with
  | nil => simp [checkAnyOf]
  | cons a rest ih =>
    rw [checkAnyOf]
    have ha : checkAssertion a r ≠ .pass := h a (List.mem_cons_self a rest)
    cases hc : checkAssertion a r with
    | pass => exact absurd hc ha
    | fail msg =>
      dsimp only
      rw [ih (some (.fail msg)) (fun b hb => h b (List.mem_cons_of_mem a hb))]
      cases hrest : rest.map (fun a => checkAssertion a r) with
      | nil => simp [hrest, hc]
      | cons x xs =>
        simp only [List.map_cons, hrest, List.getLast?_cons_cons]
        exact getLastD_cons_irrel x xs _ _
    | error msg =>
      dsimp only
      rw [ih (some (.error msg)) (fun b hb => h b (List.mem_cons_of_mem a hb))]
      cases hrest : rest.map (fun a => checkAssertion a r) with
      | nil => simp [hrest, hc]
      | cons x xs =>
        simp only [List.map_cons, hrest, List.getLast?_cons_cons]
        exact getLastD_cons_irrel x xs _ _
    | notApplicable =>
      dsimp only
      rw [ih (some .notApplicable) (fun b hb => h b (List.mem_cons_of_mem a hb))]
      cases hrest : rest.map (fun a => checkAssertion a r) with
      | nil => simp [hrest, hc]
      | cons x xs =>
        simp only [List.map_cons, hrest, List.getLast?_cons_cons]
        exact getLastD_cons_irrel x xs _ _
    | skipped =>
      dsimp only
      rw [ih (some .skipped) (fun b hb => h b (List.mem_cons_of_mem a hb))]
      cases hrest : rest.map (fun a => checkAssertion a r) with
      | nil => simp [hrest, hc]
      | cons x xs =>
        simp only [List.map_cons, hrest, List.getLast?_cons_cons]
        exact getLastD_cons_irrel x xs _ _

/-- A sample successful query result used by the concrete witnesses. -/
def sampleOk : Except EngineError XQueryResult :=
  .ok { toStr := "true", count := 1, isEmpty := false, itemsEmpty := false }

-- ===== Claim theorems: the assertion evaluator =====

/-- C2: for every assertion `a` and execution outcome `r`,
`check_assertion(Not(a), r)` is `Fail` when `check_assertion(a, r)` is
`Pass`, is `Pass` when it is `Fail`, and is the same outcome otherwise
(`Error`, `NotApplicable`, `Skipped` pass through unchanged). -/
theorem notAssertion_inverts (a : Assertion) (r : Except EngineError XQueryResult) :
    (checkAssertion a r = .pass → (checkAssertion (.not a) r).isFail = true) ∧
    (∀ msg, checkAssertion a r = .fail msg → checkAssertion (.not a) r = .pass) ∧
    ((checkAssertion a r).isPass = false → (checkAssertion a r).isFail = false →
      checkAssertion (.not a) r = checkAssertion a r) := by
  refine ⟨fun h => ?_, fun msg h => ?_, fun h1 h2 => ?_⟩ <;>
    rw [checkAssertion] <;>
    cases hc : checkAssertion a r <;>
      simp_all [TestOutcome.isFail, TestOutcome.isPass]

/-- Witness for C2 at a concrete input: `allOf []` passes, so its negation
fails. -/
theorem notAssertion_inverts_witness :
    (checkAssertion (.not (.allOf [])) sampleOk).isFail = true :=
  (notAssertion_inverts (.allOf []) sampleOk).1 (by rw [checkAssertion, checkAllOf])

/-- C3: `check_assertion(AllOf(list), r)` evaluates the nested assertions in
order and returns the first outcome that is not `Pass`; if all pass, or the
list is empty, the result is `Pass`. -/
theorem allOf_first_non_pass (l : List Assertion) (r : Except EngineError XQueryResult) :
    checkAssertion (.allOf l) r
        = ((l.map (fun a => checkAssertion a r)).find? (fun o => !o.isPass)).getD .pass ∧
    checkAssertion (.allOf []) r = .pass := by
  constructor
  · rw [checkAssertion]; exact checkAllOf_eq_find l r
  · rw [checkAssertion, checkAllOf]

/-- C10: the empty `AnyOf` defaults to `Pass` (the `last_failure`
accumulator is still `None`, and `unwrap_or(Pass)` yields `Pass`). -/
theorem anyOf_empty_pass (r : Except EngineError XQueryResult) :
    checkAssertion (.anyOf []) r = .pass := by
  rw [checkAssertion, checkAnyOf]
  rfl

/-- C4: for a non-empty list, `check_assertion(AnyOf(list), r)` returns
`Pass` as soon as some element evaluates to `Pass`, and otherwise returns
the outcome of the last evaluated element. -/
theorem anyOf_semantics (l : List Assertion) (r : Except EngineError XQueryResult)
    (_hne : l ≠ []) :
    ((∃ a ∈ l, checkAssertion a r = .pass) → checkAssertion (.anyOf l) r = .pass) ∧
    ((∀ a ∈ l, checkAssertion a r ≠ .pass) →
      checkAssertion (.anyOf l) r
        = ((l.map (fun a => checkAssertion a r)).getLast?).getD .pass) := by
  constructor
  · rintro ⟨a, ha, hp⟩
    rw [checkAssertion]
    exact checkAnyOf_pass l r none a ha hp
  · intro h
    rw [checkAssertion, checkAnyOf_noPass l r none h]
    rfl

/-- Witness for C4: the spec example `AnyOf([Fail, Pass, Fail])` evaluates
to `Pass` (here `not(allOf [])` fails and `allOf []` passes). -/
theorem anyOf_semantics_witness :
    checkAssertion (.anyOf [.not (.allOf []), .allOf [], .not (.allOf [])]) sampleOk = .pass :=
  (anyOf_semantics [.not (.allOf []), .allOf [], .not (.allOf [])] sampleOk
      (by simp)).1
    ⟨.allOf [], by simp, by rw [checkAssertion, checkAllOf]⟩

/-- C7: an expected-error assertion accepts any engine error (the error code
is not compared), and fails on a successful result with a message naming the
expected code. -/
theorem expected_error_semantics (code : String) (e : EngineError) (r : XQueryResult) :
    checkAssertion (.error code) (.error e) = .pass ∧
    checkAssertion (.error code) (.ok r)
        = .fail ("Expected error " ++ code ++ ", got result: " ++ r.toStr) ∧
    strContains ("Expected error " ++ code ++ ", got result: " ++ r.toStr) code = true := by
  refine ⟨?_, ?_, ?_⟩
  · rw [checkAssertion]; simp
  · rw [checkAssertion]
  · have h := strContains_mid "Expected error " code (", got result: " ++ r.toStr)
    simpa [String.append_assoc] using h

-- ===== Engine model, dependency checking, test execution (qt3.rs) =====

/-- `unified.rs` `Backend` (the variant tags of `XEngine`). -/
inductive Backend where
  | xee
  | xrust
  | xust
deriving Repr, DecidableEq

/-- `unified.rs` `XDocument`, identified by the text it was parsed from. -/
structure XDocument where
  xml : String
deriving Repr, DecidableEq

/-- `unified.rs` `XEngine`: the backend tag plus the observable behaviour of
the out-of-scope backend engines (`parse`, `parse_file`, `xpath`), each
modelled as a pure function. -/
structure XEngine where
  backend : Backend
  parse : String → Except EngineError XDocument
  parseFile : String → Except EngineError XDocument
  xpath : XDocument → String → Except EngineError XQueryResult

/-- `qt3.rs` `Dependency`. -/
structure Dependency where
  depType : String
  value : String
  satisfied : Bool
deriving Repr, DecidableEq

/-- `qt3.rs` `Source` (role and joined file path; the `validation` field,
always `None`, is omitted). -/
structure Source where
  role : String
  file : String
  uri : Option String
deriving Repr, DecidableEq

/-- `qt3.rs` `Environment`: the fields `parse_environment_with_prefix`
populates (`params`, `schemas`, `collections` and `static_base_uri` are
never filled in by the qt3 parser and are omitted). -/
structure Environment where
  name : Option String
  sources : List Source
  namespaces : List (String × String)
deriving Repr, DecidableEq

/-- `qt3.rs` `EnvironmentRef`. -/
inductive EnvironmentRef where
  | named (name : String)
  | inlineEnv (env : Environment)
deriving Repr, DecidableEq

/-- `qt3.rs` `TestCase`. -/
structure TestCase where
  name : String
  description : String
  environment : Option EnvironmentRef
  dependencies : List Dependency
  test : String
  result : Assertion

/-- The unsupported-feature list hard-coded in `check_dependency`. -/
def unsupportedFeatures : List String :=
  ["serialization", "schema-import", "schema-validation",
   "static-typing", "module", "collection-stability",
   "directory-as-collection-uri", "higherOrderFunctions"]

/-- `qt3.rs` `check_dependency`: `spec` dependencies test the value string
for the version tokens each backend supports; `feature` dependencies are
satisfied unless the value mentions an unsupported feature; any other type
falls back to the catalog-declared `satisfied` flag. -/
def checkDependency (dependency : Dependency) (engine : XEngine) : Bool :=
  if dependency.depType == "spec" then
    match engine.backend with
    | .xee =>
      strContains dependency.value "XP31" || strContains dependency.value "XP30" ||
      strContains dependency.value "XP20" || strContains dependency.value "XP10"
    | .xrust =>
      strContains dependency.value "XP10" || strContains dependency.value "XP20"
    | .xust =>
      strContains dependency.value "XQ31" || strContains dependency.value "XQ30" ||
      strContains dependency.value "XP31" || strContains dependency.value "XP30"
  else if dependency.depType == "feature" then
    !(unsupportedFeatures.any (fun f => strContains dependency.value f))
  else dependency.satisfied

/-- `HashMap<String, Environment>` modelled as an association list with
first-match lookup. -/
abbrev EnvMap := List (String × Environment)

/-- `HashMap::get`. -/
def envGet (m : EnvMap) (k : String) : Option Environment :=
  (m.find? (fun p => p.1 == k)).map (fun p => p.2)

/-- `HashMap::insert` (prepending shadows any earlier binding, matching the
overwrite semantics observable through `envGet`). -/
def envInsert (m : EnvMap) (k : String) (v : Environment) : EnvMap :=
  (k, v) :: m

/-- The `TestResult` fields the qt3 driver fills: `test_id`, `outcome`,
`actual`.  The `expected` field (a `Debug` rendering of the assertion,
inspected by no claim) and the wall-clock `duration` are omitted. -/
structure QtTestResult where
  testId : String
  outcome : TestOutcome
  actual : Option String
deriving Repr, DecidableEq

/-- The environment-resolution step of `run_test_case` (`qt3.rs` 767-772):
a named reference is looked up in the merged map — yielding `none` when the
name is absent — and an inline environment is used as-is. -/
def resolveEnvironment (testCase : TestCase) (environments : EnvMap) : Option Environment :=
  match testCase.environment with
  | some (.named name) => envGet environments name
  | some (.inlineEnv env) => some env
  | none => none

/-- `qt3.rs` `run_test_case`.  Rust early `return`s are modelled by
threading `Except QtTestResult`; the unused `_base_dir` parameter is
dropped. -/
def runTestCase (engine : XEngine) (testCase : TestCase) (environments : EnvMap) :
    QtTestResult :=
  match testCase.dependencies.find? (fun dep => !checkDependency dep engine) with
  | some dep =>
    { testId := testCase.name
      outcome := .notApplicable
      actual := some ("Dependency not satisfied: " ++ dep.depType ++ " = " ++ dep.value) }
  | none =>
    let env := resolveEnvironment testCase environments
    let contextDoc : Except QtTestResult (Option XDocument) :=
      match env with
      | some e =>
        match e.sources.find? (fun s => s.role == ".") with
        | some source =>
          match engine.parseFile source.file with
          | .ok doc => .ok (some doc)
          | .error err =>
            .error { testId := testCase.name
                     outcome := .error ("Failed to load context: " ++ err.message)
                     actual := none }
        | none => .ok none
      | none => .ok none
    match contextDoc with
    | .error earlyReturn => earlyReturn
    | .ok ctx =>
      let queryResult : Except QtTestResult (Except EngineError XQueryResult) :=
        match ctx with
        | some doc => .ok (engine.xpath doc testCase.test)
        | none =>
          match engine.parse "<empty/>" with
          | .ok emptyDoc => .ok (engine.xpath emptyDoc testCase.test)
          | .error e =>
            .error { testId := testCase.name
                     outcome := .error ("Failed to create empty doc: " ++ e.message)
                     actual := none }
      match queryResult with
      | .error earlyReturn => earlyReturn
      | .ok result =>
        { testId := testCase.name
          outcome := checkAssertion testCase.result result
          actual :=
            match result with
            | .ok r => some r.toStr
            | .error e => some ("Error: " ++ e.message) }

-- ===== Environment parsing (qt3.rs catalog / test-set loading) =====

/-- The raw `@role`/`@file`/`@uri` attribute strings of one `<source>`
element, as extracted (and trimmed) by the XPath queries in
`parse_environment_with_prefix`. -/
structure RawSource where
  role : String
  file : String
  uri : String
deriving Repr, DecidableEq

/-- The raw attribute content of one `<environment>` element: trimmed
`@name` and the raw sources and namespace bindings. -/
structure RawEnvironment where
  name : String
  sources : List RawSource
  namespaces : List (String × String)
deriving Repr, DecidableEq

/-- `parse_environment_with_prefix` (`qt3.rs` 328-383) applied to the
extracted raw attributes: an empty name becomes `None`; a source is kept
only when its `@file` is non-empty, an empty `@role` defaults to `"."`, and
the stored path is `base_dir.join(file)`; namespace bindings with an empty
uri are dropped. -/
def parseEnvironment (baseDir : String) (raw : RawEnvironment) : Environment :=
  { name := if raw.name == "" then none else some raw.name
    sources := raw.sources.filterMap (fun s =>
      if s.file == "" then none
      else some { role := if s.role == "" then "." else s.role
                  file := pathJoin baseDir s.file
                  uri := if s.uri == "" then none else some s.uri })
    namespaces := raw.namespaces.filter (fun p => !(p.2 == "")) }

/-- The environment-insertion loop shared by `parse_catalog` (239-248) and
`parse_test_set` (277-287): each parsed environment is inserted under its
name; unnamed environments are dropped. -/
def envFoldInsert (baseDir : String) (start : EnvMap) : List RawEnvironment → EnvMap
  | [] => start
  | raw :: rest =>
    let env := parseEnvironment baseDir raw
    envFoldInsert baseDir
      (match env.name with
       | some n => envInsert start n env
       | none => start) rest

/-- The global-environment map built by `parse_catalog`: environments are
parsed with `base_dir` = the catalog file's parent directory (`qt3.rs` 189,
243). -/
def catalogGlobalEnvs (catalogDir : String) (raws : List RawEnvironment) : EnvMap :=
  envFoldInsert catalogDir [] raws

/-- The merged map built by `parse_test_set`: it starts as a clone of the
global map and local environments — parsed with `base_dir` = the test-set
file's parent directory (`qt3.rs` 264, 282) — are inserted over it,
shadowing same-named globals. -/
def testSetEnvs (testSetDir : String) (globalEnvs : EnvMap)
    (raws : List RawEnvironment) : EnvMap :=
  envFoldInsert testSetDir globalEnvs raws

-- ===== XSLT 3.0 driver (xslt30.rs), environment handling =====

/-- `xslt30.rs` `Source`. -/
structure XsltSource where
  role : String
  file : Option String
  content : Option String
  uri : Option String
deriving Repr, DecidableEq

/-- `xslt30.rs` `Environment`. -/
structure XsltEnvironment where
  name : String
  sources : List XsltSource
  stylesheet : Option String
  schemas : List String
deriving Repr, DecidableEq

/-- `xslt30.rs` `ExpectedResult`. -/
inductive ExpectedResult where
  | assertResult (expected : String)
  | assertXmlExp (file : Option String) (content : Option String)
  | errorExp (code : String)
  | allOfExp (nested : List ExpectedResult)
  | anyOfExp (nested : List ExpectedResult)
deriving Repr

/-- `xslt30.rs` `TestCase` (dependencies are `{dep_type, value}` pairs and
are not consulted by `run_test_case`). -/
structure XsltTestCase where
  name : String
  description : String
  environment : Option String
  stylesheet : Option String
  initialMode : Option String
  initialTemplate : Option String
  dependencies : List (String × String)
  result : ExpectedResult

/-- The engine operations `xslt30.rs`'s `run_test_case` uses (`parse`,
`parse_file`, `transform`). -/
structure XsltEngineOps where
  parse : String → Except EngineError XDocument
  parseFile : String → Except EngineError XDocument
  transform : XDocument → String → Except EngineError String

/-- `testdriver/mod.rs` `TestResult` as filled by the XSLT driver's
`make_result` closure (`duration` omitted). -/
structure XsltTestResult where
  testId : String
  testSet : String
  testSuite : String
  description : Option String
  outcome : TestOutcome
  expected : Option String
  actual : Option String
deriving Repr, DecidableEq

/-- `xslt30.rs` `run_test_case`.  `fs::read_to_string` is passed in as
`fsRead`; the `{:?}` rendering of a source path in one error message is
modelled by the path string itself.  Rust early `return`s are modelled by
threading `Except XsltTestResult`. -/
def xsltRunTestCase (engine : XsltEngineOps) (fsRead : String → Except String String)
    (testCase : XsltTestCase) (testSetName : String)
    (environments : List (String × XsltEnvironment)) : XsltTestResult :=
  let mkResult := fun (outcome : TestOutcome) (expected actual : Option String) =>
    { testId := testCase.name, testSet := testSetName, testSuite := "xslt30"
      description := some testCase.description
      outcome := outcome, expected := expected, actual := actual : XsltTestResult }
  match testCase.stylesheet with
  | none => mkResult .notApplicable none (some "No stylesheet specified in test case")
  | some stylesheetPath =>
    -- Validate environment exists if referenced
    let envCheck : Option XsltTestResult :=
      match testCase.environment with
      | some envName =>
        if (environments.find? (fun p => p.1 == envName)).isNone then
          some (mkResult (.error ("Environment not found: " ++ envName)) none none)
        else none
      | none => none
    match envCheck with
    | some earlyReturn => earlyReturn
    | none =>
      match fsRead stylesheetPath with
      | .error e => mkResult (.error ("Failed to read stylesheet: " ++ e)) none none
      | .ok stylesheetContent =>
        let sourceDocE : Except XsltTestResult (Option XDocument) :=
          match testCase.environment with
          | some envName =>
            match (environments.find? (fun p => p.1 == envName)).map (fun p => p.2) with
            | some env =>
              match (env.sources.find? (fun s => s.role == ".")).or env.sources.head? with
              | some source =>
                match source.content with
                | some content =>
                  match engine.parse content with
                  | .ok doc => .ok (some doc)
                  | .error e =>
                    .error (mkResult (.error ("Failed to parse source: " ++ e.message)) none none)
                | none =>
                  match source.file with
                  | some file =>
                    match engine.parseFile file with
                    | .ok doc => .ok (some doc)
                    | .error e =>
                      .error (mkResult
                        (.error ("Failed to load source " ++ file ++ ": " ++ e.message)) none none)
                  | none => .ok none
              | none => .ok none
            | none => .ok none
          | none => .ok none
        match sourceDocE with
        | .error earlyReturn => earlyReturn
        | .ok sourceDocOpt =>
          let sourceDocE2 : Except XsltTestResult XDocument :=
            match sourceDocOpt with
            | some d => .ok d
            | none =>
              match engine.parse "<empty/>" with
              | .ok d => .ok d
              | .error e =>
                .error (mkResult (.error ("Failed to create empty doc: " ++ e.message)) none none)
          match sourceDocE2 with
          | .error earlyReturn => earlyReturn
          | .ok sourceDoc =>
            match engine.transform sourceDoc stylesheetContent with
            | .ok result => mkResult .pass none (some result)
            | .error e =>
              match testCase.result with
              | .errorExp _ => mkResult .pass none (some ("Expected error: " ++ e.message))
              | _ =>
                mkResult (.fail ("Transform failed: " ++ e.message)) none (some e.message)

-- ===== Reporter (reporter.rs) =====

/-- `testdriver/mod.rs` `TestResult` (fields other than the wall-clock
`duration`). -/
structure TestResult where
  testId : String
  testSet : String
  testSuite : String
  description : Option String
  outcome : TestOutcome
  expected : Option String
  actual : Option String
deriving Repr, DecidableEq

/-- `reporter.rs` `ComplianceSummary`; `pass_rate: f64` is modelled as an
exact rational (the `f64` computation is exact at every value appearing in
the claims). -/
structure ComplianceSummary where
  total : Nat
  passed : Nat
  failed : Nat
  errors : Nat
  notApplicable : Nat
  skipped : Nat
  passRate : ℚ
deriving Repr, DecidableEq

/-- `reporter.rs` `ComplianceSummary::from_results`. -/
def ComplianceSummary.fromResults (results : List TestResult) : ComplianceSummary :=
  let total := results.length
  let passed := (results.filter (fun r => r.outcome.isPass)).length
  let failed := (results.filter (fun r => r.outcome.isFail)).length
  let errors := (results.filter (fun r => r.outcome.isError)).length
  let notApplicable :=
    (results.filter (fun r =>
      match r.outcome with
      | .notApplicable => true
      | _ => false)).length
  let skipped :=
    (results.filter (fun r =>
      match r.outcome with
      | .skipped => true
      | _ => false)).length
  let applicable := total - notApplicable - skipped
  let passRate : ℚ :=
    if applicable > 0 then ((passed : ℚ) / (applicable : ℚ)) * 100 else 0
  { total := total, passed := passed, failed := failed, errors := errors
    notApplicable := notApplicable, skipped := skipped, passRate := passRate }

-- ===== Claim theorems: test execution =====

/-- C9: when every dependency is satisfied and the resolved environment has
no role-`"."` source (including the case of no environment at all),
`run_test_case` substitutes the empty placeholder document `<empty/>` and
proceeds to evaluate the test expression against it instead of failing. -/
theorem no_context_uses_placeholder (engine : XEngine) (tc : TestCase)
    (environments : EnvMap) (d : XDocument)
    (hdeps : ∀ dep ∈ tc.dependencies, checkDependency dep engine = true)
    (henv : ∀ e, resolveEnvironment tc environments = some e →
      e.sources.find? (fun s => s.role == ".") = none)
    (hparse : engine.parse "<empty/>" = .ok d) :
    runTestCase engine tc environments
      = { testId := tc.name
          outcome := checkAssertion tc.result (engine.xpath d tc.test)
          actual :=
            match engine.xpath d tc.test with
            | .ok r => some r.toStr
            | .error e => some ("Error: " ++ e.message) } := by
  have hfind : tc.dependencies.find? (fun dep => !checkDependency dep engine) = none := by
    rw [List.find?_eq_none]
    intro dep hdep
    simp [hdeps dep hdep]
  rw [runTestCase, hfind]
  cases hres : resolveEnvironment tc environments with
  | none => simp [hparse]
  | some e => simp [henv e hres, hparse]

/-- Concrete engine for the C9 witness: parses everything, answers every
query with the single-item result `"2"`. -/
def c9Engine : XEngine :=
  { backend := .xee
    parse := fun s => .ok ⟨s⟩
    parseFile := fun _ => .error ⟨"no file"⟩
    xpath := fun _ _ => .ok { toStr := "2", count := 1, isEmpty := false, itemsEmpty := false } }

/-- Concrete test case for the C9 witness: no environment, `assert-eq 2`. -/
def c9Case : TestCase :=
  { name := "c9", description := "", environment := none, dependencies := []
    test := "1+1", result := .assertEq "2" }

/-- Witness for C9: the placeholder document is used and the test passes. -/
theorem no_context_uses_placeholder_witness :
    runTestCase c9Engine c9Case []
      = { testId := "c9", outcome := .pass, actual := some "2" } := by
  have h := no_context_uses_placeholder c9Engine c9Case [] ⟨"<empty/>"⟩
    (by intro dep hdep; simp [c9Case] at hdep)
    (by intro e he; simp [resolveEnvironment, c9Case] at he)
    rfl
  rw [h]
  simp only [c9Case, c9Engine]
  rw [checkAssertion]
  decide

/-- C5: a dependency the engine does not satisfy short-circuits
`run_test_case` to `NotApplicable`; the result does not depend on the
engine's `parse`/`parse_file`/`xpath` behaviour (so the query operation is
never consulted); and a `spec` dependency on `XP31` is unsatisfied for the
xrust backend, the engine declaring only XPath 1.0/2.0 support. -/
theorem unsatisfied_dependency_not_applicable (engine : XEngine) (tc : TestCase)
    (environments : EnvMap) (dep : Dependency)
    (hmem : dep ∈ tc.dependencies)
    (hdep : checkDependency dep engine = false) :
    (runTestCase engine tc environments).outcome = .notApplicable ∧
    (∀ f g h,
      runTestCase { engine with parse := f, parseFile := g, xpath := h } tc environments
        = runTestCase engine tc environments) ∧
    (∀ e : XEngine, e.backend = .xrust →
      checkDependency { depType := "spec", value := "XP31", satisfied := true } e = false) := by
  have hsome : ∃ d, tc.dependencies.find? (fun dep => !checkDependency dep engine) = some d := by
    rw [← Option.isSome_iff_exists, List.find?_isSome]
    exact ⟨dep, hmem, by simp [hdep]⟩
  obtain ⟨d, hd⟩ := hsome
  have hops : ∀ (f : String → Except EngineError XDocument)
      (g : String → Except EngineError XDocument)
      (h : XDocument → String → Except EngineError XQueryResult) (dp : Dependency),
      checkDependency dp { engine with parse := f, parseFile := g, xpath := h }
        = checkDependency dp engine := fun _ _ _ _ => rfl
  refine ⟨?_, ?_, ?_⟩
  · rw [runTestCase, hd]
  · intro f g h
    have hd2 : tc.dependencies.find?
        (fun dep => !checkDependency dep { engine with parse := f, parseFile := g, xpath := h })
        = some d := by
      simpa [hops] using hd
    rw [runTestCase, hd2, runTestCase, hd]
  · intro e he
    simp [checkDependency, he]
    decide

/-- Concrete engine for the C5 witness (xrust backend). -/
def c5Engine : XEngine :=
  { backend := .xrust
    parse := fun _ => .error ⟨"e"⟩
    parseFile := fun _ => .error ⟨"e"⟩
    xpath := fun _ _ => .error ⟨"e"⟩ }

/-- Concrete test case for the C5 witness: one `spec XP31` dependency. -/
def c5Case : TestCase :=
  { name := "c5", description := "", environment := none
    dependencies := [{ depType := "spec", value := "XP31", satisfied := true }]
    test := "1", result := .allOf [] }

/-- Witness for C5 at a concrete input. -/
theorem unsatisfied_dependency_not_applicable_witness :
    (runTestCase c5Engine c5Case []).outcome = .notApplicable :=
  (unsatisfied_dependency_not_applicable c5Engine c5Case []
    { depType := "spec", value := "XP31", satisfied := true }
    (by simp [c5Case]) (by decide)).1

/-- Probe engine for C1: parses only the placeholder document, answers every
query with the boolean `true`. -/
def c1Engine : XEngine :=
  { backend := .xee
    parse := fun s => if s == "<empty/>" then .ok ⟨s⟩ else .error ⟨"unexpected parse"⟩
    parseFile := fun p => .error ⟨"file not found: " ++ p⟩
    xpath := fun _ _ => .ok { toStr := "true", count := 1, isEmpty := false, itemsEmpty := false } }

/-- C1 failing input (QT3 side): a test case whose named environment
reference `missing-env` is absent from the (empty) merged map. -/
def c1Case : TestCase :=
  { name := "missing-env-case", description := ""
    environment := some (.named "missing-env")
    dependencies := [], test := "1 eq 1", result := .assertTrue }

/-- The same failing input for the XSLT 3.0 driver. -/
def c1XsltCase : XsltTestCase :=
  { name := "missing-env-case", description := ""
    environment := some "missing-env", stylesheet := some "sheet.xsl"
    initialMode := none, initialTemplate := none, dependencies := []
    result := .assertResult "" }

/-- Engine operations for the XSLT side of C1 (never reached). -/
def c1XsltEngine : XsltEngineOps :=
  { parse := fun _ => .error ⟨"e"⟩
    parseFile := fun _ => .error ⟨"e"⟩
    transform := fun _ _ => .error ⟨"e"⟩ }

/-- C1 (code bug): on a test case whose named environment is absent from
both maps, the qt3 driver silently proceeds as though no environment were
referenced — it evaluates the test against the empty placeholder document
and reports the assertion outcome (`Pass` here), with no `Error` mentioning
the environment — whereas the sibling XSLT 3.0 driver reports
`Error("Environment not found: <name>")`, which is what the spec demands of
both drivers. -/
theorem missing_environment_divergence :
    runTestCase c1Engine c1Case []
      = { testId := "missing-env-case", outcome := .pass, actual := some "true" } ∧
    (xsltRunTestCase c1XsltEngine (fun _ => .error "io") c1XsltCase "ts" []).outcome
      = .error ("Environment not found: missing-env") := by
  constructor
  · have hx : checkAssertion Assertion.assertTrue
        (Except.ok { toStr := "true", count := 1, isEmpty := false, itemsEmpty := false }
          : Except EngineError XQueryResult) = .pass := by
      rw [checkAssertion]; decide
    simp [runTestCase, c1Case, c1Engine, resolveEnvironment, envGet, hx]
  · rfl

-- ===== Claim theorems: reporter =====

/-- Two filters by disjoint predicates together keep at most every element. -/
theorem filter_two_disjoint_le {α : Type} (p q : α → Bool) (l : List α)
    (h : ∀ x, p x = true → q x = false) :
    (l.filter p).length + (l.filter q).length ≤ l.length := by
  induction l with
  | nil => simp
  | cons a t ih =>
    cases hp : p a
    · cases hq : q a <;> simp [List.filter_cons, hp, hq] <;> omega
    · have hq := h a hp
      simp [List.filter_cons, hp, hq]
      omega

/-- A `TestResult` with the given outcome (used by the C6 example). -/
def mkC6 (i : String) (o : TestOutcome) : TestResult :=
  { testId := i, testSet := "s", testSuite := "qt3", description := none
    outcome := o, expected := none, actual := none }

/-- The ten concrete results of the spec's pass-rate example: 6 passed,
2 failed, 0 errors, 1 not applicable, 1 skipped. -/
def c6Results : List TestResult :=
  [mkC6 "t1" .pass, mkC6 "t2" .pass, mkC6 "t3" .pass, mkC6 "t4" .pass,
   mkC6 "t5" .pass, mkC6 "t6" .pass, mkC6 "t7" (.fail "f"), mkC6 "t8" (.fail "f"),
   mkC6 "t9" .notApplicable, mkC6 "t10" .skipped]

/-- C6: the compliance summary satisfies
`applicable = total - notApplicable - skipped` (well defined: those two
counts never exceed the total) and
`passRate = passed/applicable*100` when `applicable > 0`, else `0`; at the
spec's example the summary is `total 10, passed 6, failed 2, errors 0,
notApplicable 1, skipped 1, passRate 75`. -/
theorem compliance_summary_arithmetic :
    (∀ results : List TestResult,
      ((ComplianceSummary.fromResults results).notApplicable
          + (ComplianceSummary.fromResults results).skipped
          ≤ (ComplianceSummary.fromResults results).total) ∧
      (ComplianceSummary.fromResults results).passRate
        = (if (ComplianceSummary.fromResults results).total
              - (ComplianceSummary.fromResults results).notApplicable
              - (ComplianceSummary.fromResults results).skipped > 0
           then ((ComplianceSummary.fromResults results).passed : ℚ)
              / (((ComplianceSummary.fromResults results).total
                  - (ComplianceSummary.fromResults results).notApplicable
                  - (ComplianceSummary.fromResults results).skipped : Nat) : ℚ) * 100
           else 0)) ∧
    ComplianceSummary.fromResults c6Results
      = { total := 10, passed := 6, failed := 2, errors := 0
          notApplicable := 1, skipped := 1, passRate := 75 } := by
  refine ⟨fun results => ⟨?_, ?_⟩, ?_⟩
  · simp only [ComplianceSummary.fromResults]
    apply filter_two_disjoint_le
    intro r hr
    cases hro : r.outcome <;> simp_all
  · rfl
  · simp only [ComplianceSummary.fromResults, c6Results, mkC6]
    norm_num [List.filter, TestOutcome.isPass, TestOutcome.isFail, TestOutcome.isError]

-- ===== Claim theorems: environment source resolution =====

/-- Raw global environment for the C8 counterexample. -/
def c8RawGlobal : RawEnvironment :=
  { name := "E", sources := [{ role := ".", file := "doc.xml", uri := "" }], namespaces := [] }

/-- The merged environment map of the C8 counterexample: catalog directory
`suite`, test-set directory `suite/fn`, one global environment, no locals. -/
def c8Envs : EnvMap := testSetEnvs "suite/fn" (catalogGlobalEnvs "suite" [c8RawGlobal]) []

/-- Probe engine whose `parse_file` reports the path it was asked to load. -/
def c8Engine : XEngine :=
  { backend := .xee
    parse := fun s => .ok ⟨s⟩
    parseFile := fun p => .error ⟨p⟩
    xpath := fun _ _ => .ok { toStr := "", count := 0, isEmpty := true, itemsEmpty := true } }

/-- Test case referencing the global environment `E`. -/
def c8Case : TestCase :=
  { name := "c8", description := "", environment := some (.named "E")
    dependencies := [], test := ".", result := .allOf [] }

/-- C8 counterexample: the file path a test case actually uses for a source
of a *global* (catalog-level) environment is the catalog-directory join
`suite/doc.xml` — visible in the context-load error of the probe engine —
and not the owning test-set directory join `suite/fn/doc.xml`, contradicting
the claim for globally defined environments. -/
theorem global_env_source_catalog_relative :
    (runTestCase c8Engine c8Case c8Envs).outcome
      = .error "Failed to load context: suite/doc.xml" ∧
    pathJoin "suite/fn" "doc.xml" = "suite/fn/doc.xml" ∧
    ("suite/doc.xml" : String) ≠ "suite/fn/doc.xml" := by
  refine ⟨rfl, rfl, by decide⟩

/-- Lookup in the shared insertion loop: a found environment comes either
from one of the inserted raw environments (parsed against `baseDir`) or
from the start map. -/
theorem envFoldInsert_lookup (baseDir : String) (raws : List RawEnvironment)
    (start : EnvMap) (name : String) (env : Environment)
    (h : envGet (envFoldInsert baseDir start raws) name = some env) :
    (∃ raw ∈ raws, env = parseEnvironment baseDir raw) ∨ envGet start name = some env := by
  induction raws generalizing start with
  | nil => exact Or.inr h
  | cons raw rest ih =>
    rw [envFoldInsert] at h
    rcases ih _ h with hl | hm
    · obtain ⟨r, hr, he⟩ := hl
      exact Or.inl ⟨r, List.mem_cons_of_mem _ hr, he⟩
    · cases hn : (parseEnvironment baseDir raw).name with
      | none => rw [hn] at hm; exact Or.inr hm
      | some n =>
        rw [hn] at hm
        by_cases hname : n == name
        · simp [envGet, envInsert, List.find?_cons, hname] at hm
          exact Or.inl ⟨raw, List.mem_cons_self _ _, hm.symm⟩
        · have hf : (n == name) = false := by simpa using hname
          simp only [envGet, envInsert, List.find?_cons, hf] at hm
          exact Or.inr hm

/-- C8 amended: an environment found in the merged map comes either from
the test set's local raws — whose sources were joined against the test-set
directory — or from the catalog's global raws — whose sources were joined
against the *catalog* directory; and every parsed source path is exactly
`baseDir/file` for its raw source. -/
theorem env_sources_resolution :
    (∀ catalogDir testSetDir rawGlobals rawLocals name env,
      envGet (testSetEnvs testSetDir (catalogGlobalEnvs catalogDir rawGlobals) rawLocals) name
        = some env →
      (∃ raw ∈ rawLocals, env = parseEnvironment testSetDir raw) ∨
      (∃ raw ∈ rawGlobals, env = parseEnvironment catalogDir raw)) ∧
    (∀ baseDir raw, ∀ s ∈ (parseEnvironment baseDir raw).sources,
      ∃ rs ∈ raw.sources, s.file = pathJoin baseDir rs.file) := by
  constructor
  · intro catalogDir testSetDir rawGlobals rawLocals name env h
    rcases envFoldInsert_lookup _ _ _ _ _ h with hl | hg
    · exact Or.inl hl
    · rcases envFoldInsert_lookup _ _ _ _ _ hg with hgl | hnil
      · exact Or.inr hgl
      · simp [envGet] at hnil
  · intro baseDir raw s hs
    simp only [parseEnvironment, List.mem_filterMap] at hs
    obtain ⟨rs, hrs, heq⟩ := hs
    refine ⟨rs, hrs, ?_⟩
    by_cases hf : rs.file == ""
    · simp [hf] at heq
    · simp only [hf, Bool.false_eq_true, if_false, Option.some.injEq] at heq
      rw [← heq]

/-- Witness for the C8 amended theorem: the environment found under `"E"`
in the concrete merged map is the global one, parsed against the catalog
directory. -/
theorem env_sources_resolution_witness :
    (∃ raw ∈ ([] : List RawEnvironment),
        parseEnvironment "suite" c8RawGlobal = parseEnvironment "suite/fn" raw) ∨
    (∃ raw ∈ [c8RawGlobal],
        parseEnvironment "suite" c8RawGlobal = parseEnvironment "suite" raw) :=
  (env_sources_resolution).1 "suite" "suite/fn" [c8RawGlobal] [] "E"
    (parseEnvironment "suite" c8RawGlobal) (by decide)

end XRS
